import Mathlib

/-!
A shallow embedding of the Stellar-GeoLink Soroban contracts
(`webauthn-dispatcher` and `location-nft`) and proofs about the
dispatch protocol they implement.

Modelling conventions:
* `Address`, raw byte strings (`Bytes`, `BytesN<n>`) and symbols are
  modelled as `Nat`, `List Nat` and `String` respectively.
* Soroban persistent / instance storage is threaded explicitly as a
  state record.  `Map` objects and typed persistent keys are modelled
  as association lists; `set` conses the new binding in front, which
  gives the same `get` semantics as the host map.
* A Rust `panic` / `expect` is modelled as an `Except.error` carrying
  the corresponding error constructor.  A trapping Soroban invocation
  rolls back the storage writes it performed, so every error outcome
  returns the pre-call state; in particular the nonce write preceding
  the verifier lookup is discarded by the host when that lookup
  panics.
* Machine integers (`u32`, `u64`) are modelled as `Nat`; where overflow
  can matter (the `u32` total-supply counter) the update is taken
  modulo `2 ^ 32`.
-/

/-- Stellar address (`soroban_sdk::Address`), modelled opaquely. -/
abbrev Address : Type := Nat

/-- Raw byte string (`soroban_sdk::Bytes` and `BytesN<n>`). -/
abbrev ByteStr : Type := List Nat

/-- Association-list lookup, first binding wins (models map `get` /
persistent-storage `get` for a typed key). -/
def mapGet {K V : Type} [DecidableEq K] : List (K × V) → K → Option V
  | [], _ => none
  | (k2, v) :: rest, k => if k2 = k then some v else mapGet rest k

/-- Association-list update (models map `set` / persistent-storage
`set`): the new binding shadows any older one. -/
def mapSet {K V : Type} (m : List (K × V)) (k : K) (v : V) : List (K × V) :=
  (k, v) :: m

/-- `ContractCallIntent` from `webauthn-dispatcher/src/lib.rs`. -/
structure ContractCallIntent where
  v : Nat
  contract_id : Address
  fn_name : String
  args : List ByteStr
  signer : Address
  nonce : ByteStr
  iat : Nat
  exp : Nat
  deriving DecidableEq

/-- `WebAuthnSignature` from `webauthn-dispatcher/src/lib.rs`. -/
structure WebAuthnSignature where
  signature : ByteStr
  authenticator_data : ByteStr
  client_data_json : ByteStr
  signature_payload : ByteStr
  deriving DecidableEq

/-- The dispatcher's durable storage: the instance cell holding the
verifier contract address (`WEBAUTHN_VERIFIER`), and the persistent
`nonces` map keyed by (signer, nonce). -/
structure DispatcherState where
  verifier : Option Address
  nonces : List ((Address × ByteStr) × Bool)
  deriving DecidableEq

/-- Errors of `execute_with_webauthn`; each constructor corresponds to
one panic / expect message in the source:
`Expired` = "Intent expired", `IssuedInFuture` = "Intent issued in the
future", `AlreadyConsumed` = "Nonce already used",
`VerifierNotConfigured` = "Verifier contract not initialized". -/
inductive DispatchError where
  | Expired
  | IssuedInFuture
  | AlreadyConsumed
  | VerifierNotConfigured
  deriving DecidableEq

instance : DecidableEq (Except DispatchError ByteStr) := fun a b =>
  match a, b with
  | .ok x, .ok y => if h : x = y then isTrue (by rw [h]) else isFalse (by simp [h])
  | .error x, .error y => if h : x = y then isTrue (by rw [h]) else isFalse (by simp [h])
  | .ok _, .error _ => isFalse (by simp)
  | .error _, .ok _ => isFalse (by simp)

/-- Opaque model of `soroban_sdk` XDR serialization of an address (the
result is built but discarded by `encode_intent`, exactly as in the
source). -/
def addressToXdr (a : Address) : ByteStr := [a]

/-- Opaque model of XDR serialization of a symbol. -/
def symbolToXdr (s : String) : ByteStr := s.data.map Char.toNat

/-- Opaque model of XDR serialization of a `Vec<Bytes>`. -/
def vecBytesToXdr (v : List ByteStr) : ByteStr := v.flatten

/-- Opaque model of XDR serialization of a `u64`. -/
def u64ToXdr (n : Nat) : ByteStr := [n]

/-- `WebAuthnDispatcher::encode_intent`.  The source pushes one chunk
per field into a temporary `Vec`, but that vector is never read: the
function ends with `Bytes::new(env)`, so the result is always the
empty byte string. -/
def encode_intent (intent : ContractCallIntent) : ByteStr :=
  let _bytes : List ByteStr :=
    [[intent.v % 256],
     addressToXdr intent.contract_id,
     symbolToXdr intent.fn_name,
     vecBytesToXdr intent.args,
     addressToXdr intent.signer,
     intent.nonce,
     u64ToXdr intent.iat,
     u64ToXdr intent.exp]
  []

/-- `WebAuthnDispatcher::derive_challenge`: the source returns the
constant 32-byte zero array (SHA-256 is left as a placeholder). -/
def derive_challenge (_intent_bytes : ByteStr) : ByteStr :=
  List.replicate 32 0

/-- `WebAuthnDispatcher::initialize`: stores the verifier contract
address in the instance cell.  (Renamed from `initialize`, which is a
reserved keyword in Lean.) -/
def initializeDispatcher (s : DispatcherState) (verifier_contract : Address) :
    DispatcherState :=
  { s with verifier := some verifier_contract }

/-- `WebAuthnDispatcher::is_nonce_used`: a pure read of the persistent
`nonces` map. -/
def is_nonce_used (s : DispatcherState) (signer : Address) (nonce : ByteStr) : Bool :=
  (mapGet s.nonces (signer, nonce)).isSome

/-- `WebAuthnDispatcher::execute_with_webauthn`.  `current_time` is
`env.ledger().timestamp()`.  Returns the storage state as committed by
the host after the call together with the call's outcome: a panicking
invocation is rolled back by the host, so every error branch returns
the pre-call state — in particular the nonce write performed just
before the verifier lookup is discarded when that lookup panics. -/
def execute_with_webauthn (s : DispatcherState) (current_time : Nat)
    (intent : ContractCallIntent) (_webauthn_signature : WebAuthnSignature)
    (_passkey_public_key : ByteStr) (_rp_id_hash : ByteStr) :
    DispatcherState × Except DispatchError ByteStr :=
  -- 1. Verify intent expiration
  if current_time > intent.exp then
    (s, .error .Expired)
  else if intent.iat > current_time + 60 then
    (s, .error .IssuedInFuture)
  else
    -- 2. Verify nonce uniqueness (anti-replay)
    let nonce_key := (intent.signer, intent.nonce)
    let nonces := s.nonces
    if (mapGet nonces nonce_key).isSome then
      (s, .error .AlreadyConsumed)
    else
      let nonces := mapSet nonces nonce_key true
      let s2 := { s with nonces := nonces }
      -- 3. Load the verifier contract address (expect = panic if unset;
      --    the panic makes the host roll back the write in `s2`)
      match s2.verifier with
      | none => (s, .error .VerifierNotConfigured)
      | some _verifier_contract =>
        -- 4. Derive challenge from intent bytes (computed, never used)
        let intent_bytes := encode_intent intent
        let _challenge := derive_challenge intent_bytes
        -- 5. The source does not invoke the target; it returns empty bytes
        (s2, .ok [])

/-! ## The `location-nft` contract -/

/-- `TokenMetadata` from `location-nft/src/lib.rs`. -/
structure TokenMetadata where
  name : String
  symbol : String
  uri : String
  latitude : String
  longitude : String
  radius : Nat
  created_at : Nat
  deriving DecidableEq

/-- `LocationData` from `location-nft/src/lib.rs`. -/
structure LocationData where
  latitude : String
  longitude : String
  radius : Nat
  deriving DecidableEq

/-- The NFT contract's durable storage.  Ownership facts are keyed by
`DataKey { owner, token_id }`, metadata and location by
`(token_id, symbol)` pairs; the typed keys never collide, so each key
family is one association list.  `supply` models the `SUPPLY` instance
cell (`get(..).unwrap_or(0)` when absent). -/
structure NFTState where
  admin : Option Address
  contractName : Option String
  contractSymbol : Option String
  supply : Option Nat
  ownership : List ((Address × Nat) × Bool)
  metadata : List (Nat × TokenMetadata)
  location : List (Nat × LocationData)
  deriving DecidableEq

/-- `LocationNFT::initialize` (renamed: `initialize` is a reserved
keyword in Lean). -/
def initializeNFT (s : NFTState) (admin : Address) (name symbol : String) :
    NFTState :=
  { s with admin := some admin, contractName := some name,
           contractSymbol := some symbol, supply := some 0 }

/-- `LocationNFT::total_supply`: `get(SUPPLY).unwrap_or(0)`. -/
def total_supply (s : NFTState) : Nat :=
  s.supply.getD 0

/-- `LocationNFT::is_owner`: `persistent().has(&DataKey{owner, token_id})`. -/
def is_owner (s : NFTState) (owner : Address) (token_id : Nat) : Bool :=
  (mapGet s.ownership (owner, token_id)).isSome

/-- `LocationNFT::mint`.  `current_time` is `env.ledger().timestamp()`;
the error value models `Error::from_contract_error(2)`.  The `u32`
supply counter is updated modulo `2 ^ 32`.  (The source's `to`
parameter is renamed `rcpt`: `to` is reserved in Lean.) -/
def mint (s : NFTState) (current_time : Nat) (rcpt : Address) (token_id : Nat)
    (name symbol uri latitude longitude : String) (radius : Nat) :
    NFTState × Except Nat Unit :=
  -- Check if token already exists
  let data_key := (rcpt, token_id)
  if (mapGet s.ownership data_key).isSome then
    (s, .error 2)
  else
    -- Store token ownership
    let s := { s with ownership := mapSet s.ownership data_key true }
    -- Store token metadata
    let md : TokenMetadata :=
      { name := name, symbol := symbol, uri := uri, latitude := latitude,
        longitude := longitude, radius := radius, created_at := current_time }
    let s := { s with metadata := mapSet s.metadata token_id md }
    -- Store location data
    let loc : LocationData :=
      { latitude := latitude, longitude := longitude, radius := radius }
    let s := { s with location := mapSet s.location token_id loc }
    -- Increment total supply (u32 arithmetic)
    let current_supply := s.supply.getD 0
    let s := { s with supply := some ((current_supply + 1) % 2 ^ 32) }
    (s, .ok ())

/-! ## Concrete fixtures used by witnesses and counterexamples -/

/-- A representative intent. -/
def sampleIntent : ContractCallIntent :=
  { v := 1, contract_id := 7, fn_name := "transfer", args := [[1, 2]],
    signer := 3, nonce := [9], iat := 40, exp := 100 }

/-- A representative signature bundle; its `signature_payload` and
`client_data_json` differ from the dispatcher-derived challenge. -/
def sampleSig : WebAuthnSignature :=
  { signature := [1], authenticator_data := [2], client_data_json := [3],
    signature_payload := [4] }

/-- Fresh dispatcher storage, before `initialize` has ever run. -/
def emptyDispatcher : DispatcherState := { verifier := none, nonces := [] }

/-- Dispatcher storage after `initialize` with verifier address 5. -/
def initDispatcher : DispatcherState := initializeDispatcher emptyDispatcher 5

/-- Fresh NFT-contract storage. -/
def emptyNFT : NFTState :=
  { admin := none, contractName := none, contractSymbol := none,
    supply := none, ownership := [], metadata := [], location := [] }

/-! ## Helper lemmas -/

theorem mapGet_mapSet {K V : Type} [DecidableEq K] (m : List (K × V)) (k k2 : K)
    (v : V) :
    mapGet (mapSet m k v) k2 = if k = k2 then some v else mapGet m k2 := by
  simp [mapGet, mapSet]

/-- Unfolding characterization of `execute_with_webauthn`: the time
gates run first, then the nonce check-and-set, then the verifier
lookup; the consumed nonce is committed only on the success branch —
the `VerifierNotConfigured` panic is rolled back by the host. -/
theorem execute_with_webauthn_eq (s : DispatcherState) (t : Nat)
    (intent : ContractCallIntent) (sig : WebAuthnSignature) (pk rp : ByteStr) :
    execute_with_webauthn s t intent sig pk rp =
      if t > intent.exp then (s, .error .Expired)
      else if intent.iat > t + 60 then (s, .error .IssuedInFuture)
      else if is_nonce_used s intent.signer intent.nonce then
        (s, .error .AlreadyConsumed)
      else
        match s.verifier with
        | none => (s, .error .VerifierNotConfigured)
        | some _ =>
          ({ s with nonces := mapSet s.nonces (intent.signer, intent.nonce) true },
           .ok []) := rfl

/-- Unfolding characterization of `mint`: the existence check on the
(owner, token) key runs before every storage write. -/
theorem mint_eq (st : NFTState) (t : Nat) (rcpt : Address) (tid : Nat)
    (n sy u la lo : String) (r : Nat) :
    mint st t rcpt tid n sy u la lo r =
      if is_owner st rcpt tid then (st, .error 2)
      else
        ({ st with
            ownership := mapSet st.ownership (rcpt, tid) true,
            metadata := mapSet st.metadata tid ⟨n, sy, u, la, lo, r, t⟩,
            location := mapSet st.location tid ⟨la, lo, r⟩,
            supply := some ((st.supply.getD 0 + 1) % 2 ^ 32) }, .ok ()) := rfl

/-! ## Claims -/

/-- Claim C1 (refuted; the code contradicts its own documentation).
The claim says the canonical encoder is deterministic and injective:
`encode(I1) = encode(I2)` iff `I1` and `I2` are field-wise equal.  In
the source, `encode_intent` builds the per-field vector but discards
it and returns `Bytes::new(env)`, so every intent — here two intents
differing in the version field, and two more differing in the nonce —
encodes to the same empty byte string. -/
theorem c1_encode_intent_collision :
    ({ sampleIntent with v := 1 } : ContractCallIntent) ≠
        { sampleIntent with v := 2 } ∧
    encode_intent { sampleIntent with v := 1 } =
        encode_intent { sampleIntent with v := 2 } ∧
    encode_intent sampleIntent = [] ∧
    encode_intent { sampleIntent with nonce := [8] } = [] := by
  refine ⟨by decide, rfl, rfl, rfl⟩

/-- Claim C2 (refuted; the code contradicts its own comments).  The
claim says a signature bundle whose embedded challenge differs from
`derive_challenge (encode_intent intent)` makes
`execute_with_webauthn` fail.  In the source, steps 3–5 are
placeholders: no verifier call and no challenge comparison happens, so
a bundle whose `signature_payload` and `client_data_json` both differ
from the derived challenge still yields a success result. -/
theorem c2_challenge_not_checked :
    sampleSig.signature_payload ≠ derive_challenge (encode_intent sampleIntent) ∧
    sampleSig.client_data_json ≠ derive_challenge (encode_intent sampleIntent) ∧
    (execute_with_webauthn initDispatcher 50 sampleIntent sampleSig [] []).2 =
        .ok [] := by
  decide

/-- Counterexample to claim C3 as stated.  On the uninitialized
dispatcher, a time-valid call with a fresh (signer, nonce) pair passes
the nonce check and then panics at the verifier lookup; the host rolls
back the invocation's storage writes, so the pair is not consumed and
a second identical call also proceeds past the nonce check, failing
with `VerifierNotConfigured` — not with `AlreadyConsumed`.  Hence "at
most one call ever proceeds past the nonce check; any second call,
whether the first succeeded or not, fails with AlreadyConsumed" is
false of the program. -/
theorem c3_counterexample :
    (execute_with_webauthn emptyDispatcher 50 sampleIntent sampleSig [] []).2 =
        .error .VerifierNotConfigured ∧
    is_nonce_used
        (execute_with_webauthn emptyDispatcher 50 sampleIntent sampleSig [] []).1
        sampleIntent.signer sampleIntent.nonce = false ∧
    (execute_with_webauthn
        (execute_with_webauthn emptyDispatcher 50 sampleIntent sampleSig [] []).1
        50 sampleIntent sampleSig [] []).2 = .error .VerifierNotConfigured ∧
    (DispatchError.VerifierNotConfigured ≠ DispatchError.AlreadyConsumed) := by
  decide

/-- Claim C3 as amended: replay safety for committed reservations.  A
call that passes the time gates with a fresh (signer, nonce) pair on a
configured dispatcher succeeds and commits the consumed pair; and on
any state where the pair is consumed, every call with that pair that
reaches the nonce check fails with `AlreadyConsumed` without mutating
storage — hence at most one call per pair ever succeeds.  (A call that
panics after reserving the nonce is rolled back, so a failed call does
not burn the pair.) -/
theorem c3_replay_after_success (s : DispatcherState) (t1 : Nat)
    (intent1 : ContractCallIntent) (sig1 : WebAuthnSignature) (pk1 rp1 : ByteStr)
    (v : Address) (hver : s.verifier = some v)
    (h1exp : t1 ≤ intent1.exp) (h1iat : intent1.iat ≤ t1 + 60)
    (h1fresh : is_nonce_used s intent1.signer intent1.nonce = false) :
    (execute_with_webauthn s t1 intent1 sig1 pk1 rp1).2 = .ok [] ∧
    is_nonce_used (execute_with_webauthn s t1 intent1 sig1 pk1 rp1).1
        intent1.signer intent1.nonce = true ∧
    ∀ (s2 : DispatcherState) (t2 : Nat) (intent2 : ContractCallIntent)
      (sig2 : WebAuthnSignature) (pk2 rp2 : ByteStr),
      is_nonce_used s2 intent2.signer intent2.nonce = true →
      t2 ≤ intent2.exp → intent2.iat ≤ t2 + 60 →
      (execute_with_webauthn s2 t2 intent2 sig2 pk2 rp2).2 =
        .error .AlreadyConsumed ∧
      (execute_with_webauthn s2 t2 intent2 sig2 pk2 rp2).1 = s2 := by
  refine ⟨?_, ?_, ?_⟩
  · rw [execute_with_webauthn_eq]
    rw [if_neg (by omega), if_neg (by omega), if_neg (by simp [h1fresh]), hver]
  · rw [execute_with_webauthn_eq]
    rw [if_neg (by omega), if_neg (by omega), if_neg (by simp [h1fresh]), hver]
    simp [is_nonce_used, mapGet_mapSet]
  · intro s2 t2 intent2 sig2 pk2 rp2 hused h2exp h2iat
    rw [execute_with_webauthn_eq]
    rw [if_neg (by omega), if_neg (by omega), if_pos (by simp [hused])]
    exact ⟨rfl, rfl⟩

/-- Witness for the amended C3: a first dispatch at time 50 with
`sampleIntent` on the initialized dispatcher succeeds and consumes
nonce (3, [9]); replaying the identical request fails with
`AlreadyConsumed`. -/
theorem c3_witness :
    (execute_with_webauthn
        (execute_with_webauthn initDispatcher 50 sampleIntent sampleSig [] []).1
        50 sampleIntent sampleSig [] []).2 = .error .AlreadyConsumed := by
  have h := c3_replay_after_success initDispatcher 50 sampleIntent sampleSig
    [] [] 5 (by decide) (by decide) (by decide) (by decide)
  exact (h.2.2 _ 50 sampleIntent sampleSig [] [] h.2.1 (by decide) (by decide)).1

/-- Claim C4: a call that passes the time gates with a fresh
(signer, nonce) pair and a configured verifier returns the empty byte
string, for every intent, signature bundle, public key and relying
party hash — the outcome never depends on the bundle or on a target
contract's result. -/
theorem c4_returns_empty (s : DispatcherState) (t : Nat)
    (intent : ContractCallIntent) (sig : WebAuthnSignature) (pk rp : ByteStr)
    (v : Address)
    (hexp : t ≤ intent.exp) (hiat : intent.iat ≤ t + 60)
    (hfresh : is_nonce_used s intent.signer intent.nonce = false)
    (hver : s.verifier = some v) :
    (execute_with_webauthn s t intent sig pk rp).2 = .ok [] := by
  rw [execute_with_webauthn_eq]
  rw [if_neg (by omega), if_neg (by omega), if_neg (by simp [hfresh]), hver]

/-- Witness for C4 at an initialized dispatcher, time 50, fresh nonce. -/
theorem c4_witness :
    (execute_with_webauthn initDispatcher 50 sampleIntent sampleSig [] []).2 =
      .ok [] :=
  c4_returns_empty initDispatcher 50 sampleIntent sampleSig [] [] 5
    (by decide) (by decide) (by decide) (by decide)

/-- Claim C5: expiration boundaries.  With expires-at `exp`, a call at
`current_time = exp` passes the time gates and at `exp + 1` fails with
`Expired`; with issued-at `iat = t + 60` (skew tolerance 60) a call at
`t` passes, and with `iat = t + 61` it fails with `IssuedInFuture`;
and the `Expired` rule is evaluated before the `IssuedInFuture` rule
(when both conditions hold the error is `Expired`). -/
theorem c5_expiration_boundary (s : DispatcherState) (intent : ContractCallIntent)
    (sig : WebAuthnSignature) (pk rp : ByteStr) :
    (∀ t, t = intent.exp → intent.iat ≤ t + 60 →
      (execute_with_webauthn s t intent sig pk rp).2 ≠ .error .Expired ∧
      (execute_with_webauthn s t intent sig pk rp).2 ≠ .error .IssuedInFuture) ∧
    (∀ t, t = intent.exp + 1 →
      (execute_with_webauthn s t intent sig pk rp).2 = .error .Expired) ∧
    (∀ t, intent.iat = t + 60 → t ≤ intent.exp →
      (execute_with_webauthn s t intent sig pk rp).2 ≠ .error .Expired ∧
      (execute_with_webauthn s t intent sig pk rp).2 ≠ .error .IssuedInFuture) ∧
    (∀ t, intent.iat = t + 61 → t ≤ intent.exp →
      (execute_with_webauthn s t intent sig pk rp).2 = .error .IssuedInFuture) ∧
    (∀ t, t > intent.exp →
      (execute_with_webauthn s t intent sig pk rp).2 = .error .Expired) := by
  refine ⟨?_, ?_, ?_, ?_, ?_⟩
  · intro t ht hiat
    rw [execute_with_webauthn_eq, if_neg (by omega), if_neg (by omega)]
    by_cases hn : is_nonce_used s intent.signer intent.nonce
    · simp [hn]
    · rw [if_neg (by simp [hn])]
      cases s.verifier <;> simp
  · intro t ht
    rw [execute_with_webauthn_eq, if_pos (by omega)]
  · intro t hiat hexp
    rw [execute_with_webauthn_eq, if_neg (by omega), if_neg (by omega)]
    by_cases hn : is_nonce_used s intent.signer intent.nonce
    · simp [hn]
    · rw [if_neg (by simp [hn])]
      cases s.verifier <;> simp
  · intro t hiat hexp
    rw [execute_with_webauthn_eq, if_neg (by omega), if_pos (by omega)]
  · intro t ht
    rw [execute_with_webauthn_eq, if_pos (by omega)]

/-- Witness for C5 with `exp = 100`, `iat = 40` (and `iat = 100` /
`iat = 200` variants): time 100 is accepted, 101 fails `Expired`
(also when the intent is simultaneously issued in the future, showing
the evaluation order), time 40 passes the skew gate for `iat = 100`,
and time 39 fails `IssuedInFuture`. -/
theorem c5_witness :
    (execute_with_webauthn initDispatcher 100 sampleIntent sampleSig [] []).2 ≠
        .error .Expired ∧
    (execute_with_webauthn initDispatcher 101 sampleIntent sampleSig [] []).2 =
        .error .Expired ∧
    (execute_with_webauthn initDispatcher 40
        { sampleIntent with iat := 100 } sampleSig [] []).2 ≠
        .error .IssuedInFuture ∧
    (execute_with_webauthn initDispatcher 39
        { sampleIntent with iat := 100 } sampleSig [] []).2 =
        .error .IssuedInFuture ∧
    (execute_with_webauthn initDispatcher 101
        { sampleIntent with iat := 200 } sampleSig [] []).2 = .error .Expired := by
  refine ⟨?_, ?_, ?_, ?_, ?_⟩
  · exact ((c5_expiration_boundary initDispatcher sampleIntent sampleSig [] []).1
      100 (by decide) (by decide)).1
  · exact (c5_expiration_boundary initDispatcher sampleIntent sampleSig [] []).2.1
      101 (by decide)
  · exact ((c5_expiration_boundary initDispatcher
      { sampleIntent with iat := 100 } sampleSig [] []).2.2.1
      40 (by decide) (by decide)).2
  · exact (c5_expiration_boundary initDispatcher
      { sampleIntent with iat := 100 } sampleSig [] []).2.2.2.1
      39 (by decide) (by decide)
  · exact (c5_expiration_boundary initDispatcher
      { sampleIntent with iat := 200 } sampleSig [] []).2.2.2.2 101 (by decide)

/-- Claim C6: the expiration gate precedes any storage mutation — a
call failing the expiration or issued-in-future check returns the
state unchanged (so `is_nonce_used` is unaffected, in particular it
stays `false` for a fresh pair) and reports `Expired` or
`IssuedInFuture`. -/
theorem c6_expiration_before_mutation (s : DispatcherState) (t : Nat)
    (intent : ContractCallIntent) (sig : WebAuthnSignature) (pk rp : ByteStr)
    (h : t > intent.exp ∨ intent.iat > t + 60) :
    (execute_with_webauthn s t intent sig pk rp).1 = s ∧
    ((execute_with_webauthn s t intent sig pk rp).2 = .error .Expired ∨
     (execute_with_webauthn s t intent sig pk rp).2 = .error .IssuedInFuture) ∧
    ∀ (signer : Address) (nonce : ByteStr),
      is_nonce_used (execute_with_webauthn s t intent sig pk rp).1 signer nonce =
        is_nonce_used s signer nonce := by
  rw [execute_with_webauthn_eq]
  by_cases hexp : t > intent.exp
  · rw [if_pos hexp]
    exact ⟨rfl, Or.inl rfl, fun _ _ => rfl⟩
  · have hiat : intent.iat > t + 60 := by omega
    rw [if_neg hexp, if_pos hiat]
    exact ⟨rfl, Or.inr rfl, fun _ _ => rfl⟩

/-- Witness for C6: submitting `sampleIntent` (expires-at 100) at time
101 leaves the storage untouched and its nonce unconsumed. -/
theorem c6_witness :
    (execute_with_webauthn initDispatcher 101 sampleIntent sampleSig [] []).1 =
        initDispatcher ∧
    is_nonce_used (execute_with_webauthn initDispatcher 101 sampleIntent
        sampleSig [] []).1 sampleIntent.signer sampleIntent.nonce = false := by
  have h := c6_expiration_before_mutation initDispatcher 101 sampleIntent
    sampleSig [] [] (Or.inl (by decide))
  exact ⟨h.1, by rw [h.2.2 sampleIntent.signer sampleIntent.nonce]; decide⟩

/-- Counterexample to claim C7 as stated: with the verifier cell unset,
a call whose intent is already expired fails with `Expired`, not with
`VerifierNotConfigured` — so "for every input … fails with the
VerifierNotConfigured error" is false (the verifier lookup runs after
the time and nonce gates). -/
theorem c7_counterexample :
    emptyDispatcher.verifier = none ∧
    (execute_with_webauthn emptyDispatcher 101 sampleIntent sampleSig [] []).2 =
        .error .Expired ∧
    (DispatchError.Expired ≠ DispatchError.VerifierNotConfigured) := by
  decide

/-- Claim C7 as amended: before `initialize`, `execute_with_webauthn`
never returns a success result — every call fails with a defined
error, and any call that passes the expiration and nonce gates fails
with `VerifierNotConfigured`. -/
theorem c7_fail_closed_unconfigured (s : DispatcherState) (t : Nat)
    (intent : ContractCallIntent) (sig : WebAuthnSignature) (pk rp : ByteStr)
    (hver : s.verifier = none) :
    (∃ e, (execute_with_webauthn s t intent sig pk rp).2 = .error e) ∧
    (t ≤ intent.exp → intent.iat ≤ t + 60 →
      is_nonce_used s intent.signer intent.nonce = false →
      (execute_with_webauthn s t intent sig pk rp).2 =
        .error .VerifierNotConfigured) := by
  constructor
  · rw [execute_with_webauthn_eq]
    by_cases hexp : t > intent.exp
    · rw [if_pos hexp]; exact ⟨.Expired, rfl⟩
    · rw [if_neg hexp]
      by_cases hiat : intent.iat > t + 60
      · rw [if_pos hiat]; exact ⟨.IssuedInFuture, rfl⟩
      · rw [if_neg hiat]
        by_cases hn : is_nonce_used s intent.signer intent.nonce
        · rw [if_pos hn]; exact ⟨.AlreadyConsumed, rfl⟩
        · rw [if_neg hn, hver]; exact ⟨.VerifierNotConfigured, rfl⟩
  · intro hexp hiat hfresh
    rw [execute_with_webauthn_eq,
      if_neg (by omega), if_neg (by omega), if_neg (by simp [hfresh]), hver]

/-- Witness for the amended C7: an otherwise-valid call on the fresh
(uninitialized) dispatcher fails with `VerifierNotConfigured`. -/
theorem c7_witness :
    (execute_with_webauthn emptyDispatcher 50 sampleIntent sampleSig [] []).2 =
        .error .VerifierNotConfigured :=
  (c7_fail_closed_unconfigured emptyDispatcher 50 sampleIntent sampleSig [] []
    (by decide)).2 (by decide) (by decide) (by decide)

/-- Counterexample to claim C8 as stated: an intent whose version field
is 2 (not the supported value 1) is not rejected — the call proceeds
and returns a success result, because the source contains no version
check at all. -/
theorem c8_counterexample :
    ({ sampleIntent with v := 2 } : ContractCallIntent).v ≠ 1 ∧
    (execute_with_webauthn initDispatcher 50 { sampleIntent with v := 2 }
        sampleSig [] []).2 = .ok [] := by
  decide

/-- Claim C8 as amended: `execute_with_webauthn` performs no version
gating — the intent's version field never affects the outcome (the
whole call result, state and value, is identical for any two version
values). -/
theorem c8_version_irrelevant (s : DispatcherState) (t : Nat)
    (intent : ContractCallIntent) (sig : WebAuthnSignature) (pk rp : ByteStr)
    (v1 v2 : Nat) :
    execute_with_webauthn s t { intent with v := v1 } sig pk rp =
      execute_with_webauthn s t { intent with v := v2 } sig pk rp := rfl

/-- Claim C9: replay-record permanence.  Once `is_nonce_used` returns
`true` for a (signer, nonce) pair, it still returns `true` after
`initialize` (with any verifier) and after `execute_with_webauthn`
with any arguments; `is_nonce_used` itself is a pure read and mutates
nothing.  A consumed record is never unset or deleted. -/
theorem c9_nonce_permanence (s : DispatcherState) (signer : Address)
    (nonce : ByteStr) (h : is_nonce_used s signer nonce = true) :
    (∀ (verifier_contract : Address),
      is_nonce_used (initializeDispatcher s verifier_contract) signer nonce =
        true) ∧
    (∀ (t : Nat) (intent : ContractCallIntent) (sig : WebAuthnSignature)
       (pk rp : ByteStr),
      is_nonce_used (execute_with_webauthn s t intent sig pk rp).1 signer nonce =
        true) := by
  constructor
  · intro vc
    exact h
  · intro t intent sig pk rp
    rw [execute_with_webauthn_eq]
    by_cases hexp : t > intent.exp
    · rw [if_pos hexp]; exact h
    · rw [if_neg hexp]
      by_cases hiat : intent.iat > t + 60
      · rw [if_pos hiat]; exact h
      · rw [if_neg hiat]
        by_cases hn : is_nonce_used s intent.signer intent.nonce
        · rw [if_pos hn]; exact h
        · rw [if_neg hn]
          cases s.verifier
          · exact h
          · simp only [is_nonce_used, mapGet_mapSet] at h ⊢
            split <;> simp [h]

/-- Witness for C9: the pair consumed by a successful dispatch is still
consumed after a further (here expired) call. -/
theorem c9_witness :
    is_nonce_used
      (execute_with_webauthn
        (execute_with_webauthn initDispatcher 50 sampleIntent sampleSig [] []).1
        101 sampleIntent sampleSig [] []).1
      sampleIntent.signer sampleIntent.nonce = true := by
  have h := c9_nonce_permanence
    (execute_with_webauthn initDispatcher 50 sampleIntent sampleSig [] []).1
    sampleIntent.signer sampleIntent.nonce (by decide)
  exact h.2 101 sampleIntent sampleSig [] []

/-- Claim C10: `mint` rejects exactly when an ownership record for the
same (owner, token id) pair already exists; minting one token id first
to `A` and then to a distinct `B` both succeed, after which both
`is_owner A` and `is_owner B` hold and `total_supply` has grown by 2 —
token ids are not unique across owners. -/
theorem c10_mint_per_owner (s : NFTState) (t1 t2 : Nat) (A B : Address)
    (T : Nat) (n1 sy1 u1 la1 lo1 : String) (r1 : Nat)
    (n2 sy2 u2 la2 lo2 : String) (r2 : Nat)
    (hA : is_owner s A T = false) (hB : is_owner s B T = false) (hAB : A ≠ B)
    (hsup : total_supply s + 2 < 2 ^ 32) :
    (∀ (t : Nat) (rcpt : Address) (tid : Nat) (n sy u la lo : String) (r : Nat),
      ((mint s t rcpt tid n sy u la lo r).2 = .error 2 ↔
        is_owner s rcpt tid = true) ∧
      ((mint s t rcpt tid n sy u la lo r).2 = .ok () ↔
        is_owner s rcpt tid = false)) ∧
    (mint s t1 A T n1 sy1 u1 la1 lo1 r1).2 = .ok () ∧
    (mint (mint s t1 A T n1 sy1 u1 la1 lo1 r1).1
        t2 B T n2 sy2 u2 la2 lo2 r2).2 = .ok () ∧
    is_owner (mint (mint s t1 A T n1 sy1 u1 la1 lo1 r1).1
        t2 B T n2 sy2 u2 la2 lo2 r2).1 A T = true ∧
    is_owner (mint (mint s t1 A T n1 sy1 u1 la1 lo1 r1).1
        t2 B T n2 sy2 u2 la2 lo2 r2).1 B T = true ∧
    total_supply (mint (mint s t1 A T n1 sy1 u1 la1 lo1 r1).1
        t2 B T n2 sy2 u2 la2 lo2 r2).1 = total_supply s + 2 := by
  have hsup2 : total_supply s + 2 < 2 ^ 32 := hsup
  simp only [total_supply] at hsup2
  have hs1 : (s.supply.getD 0 + 1) % 2 ^ 32 = s.supply.getD 0 + 1 :=
    Nat.mod_eq_of_lt (by omega)
  have hs2 : (s.supply.getD 0 + 1 + 1) % 2 ^ 32 = s.supply.getD 0 + 2 := by
    rw [Nat.mod_eq_of_lt (by omega)]
  have e1 : mint s t1 A T n1 sy1 u1 la1 lo1 r1 =
      ({ s with
          ownership := mapSet s.ownership (A, T) true,
          metadata := mapSet s.metadata T ⟨n1, sy1, u1, la1, lo1, r1, t1⟩,
          location := mapSet s.location T ⟨la1, lo1, r1⟩,
          supply := some ((s.supply.getD 0 + 1) % 2 ^ 32) }, .ok ()) := by
    rw [mint_eq, if_neg (by simp [hA])]
  have hB1 : is_owner (mint s t1 A T n1 sy1 u1 la1 lo1 r1).1 B T = false := by
    rw [e1]
    simp only [is_owner, mapGet_mapSet]
    rw [if_neg (by simp [hAB])]
    exact hB
  have e2 : mint (mint s t1 A T n1 sy1 u1 la1 lo1 r1).1 t2 B T n2 sy2 u2 la2
      lo2 r2 =
      ({ (mint s t1 A T n1 sy1 u1 la1 lo1 r1).1 with
          ownership := mapSet (mint s t1 A T n1 sy1 u1 la1 lo1 r1).1.ownership
            (B, T) true,
          metadata := mapSet (mint s t1 A T n1 sy1 u1 la1 lo1 r1).1.metadata T
            ⟨n2, sy2, u2, la2, lo2, r2, t2⟩,
          location := mapSet (mint s t1 A T n1 sy1 u1 la1 lo1 r1).1.location T
            ⟨la2, lo2, r2⟩,
          supply := some (((mint s t1 A T n1 sy1 u1 la1 lo1 r1).1.supply.getD 0
            + 1) % 2 ^ 32) }, .ok ()) := by
    rw [mint_eq, if_neg (by simp [hB1])]
  refine ⟨?_, ?_, ?_, ?_, ?_, ?_⟩
  · intro t rcpt tid n sy u la lo r
    rw [mint_eq]
    by_cases ho : is_owner s rcpt tid
    · simp [ho]
    · simp [ho]
  · rw [e1]
  · rw [e2]
  · rw [e2, e1]
    simp [is_owner, mapGet_mapSet, Ne.symm hAB]
  · rw [e2]
    simp [is_owner, mapGet_mapSet]
  · rw [e2, e1]
    simp [total_supply]
    omega

/-- Witness for C10: on a fresh contract, minting token 5 to address 1
and then to address 2 both succeed; both ownership facts hold and the
supply reads 2. -/
theorem c10_witness :
    (mint emptyNFT 0 1 5 "n" "sy" "u" "la" "lo" 10).2 = .ok () ∧
    (mint (mint emptyNFT 0 1 5 "n" "sy" "u" "la" "lo" 10).1
        0 2 5 "n" "sy" "u" "la" "lo" 10).2 = .ok () ∧
    is_owner (mint (mint emptyNFT 0 1 5 "n" "sy" "u" "la" "lo" 10).1
        0 2 5 "n" "sy" "u" "la" "lo" 10).1 1 5 = true ∧
    is_owner (mint (mint emptyNFT 0 1 5 "n" "sy" "u" "la" "lo" 10).1
        0 2 5 "n" "sy" "u" "la" "lo" 10).1 2 5 = true ∧
    total_supply (mint (mint emptyNFT 0 1 5 "n" "sy" "u" "la" "lo" 10).1
        0 2 5 "n" "sy" "u" "la" "lo" 10).1 = total_supply emptyNFT + 2 := by
  have h := c10_mint_per_owner emptyNFT 0 0 1 2 5 "n" "sy" "u" "la" "lo" 10
    "n" "sy" "u" "la" "lo" 10 (by decide) (by decide) (by decide) (by decide)
  exact ⟨h.2.1, h.2.2.1, h.2.2.2.1, h.2.2.2.2.1, h.2.2.2.2.2⟩
